import Mathlib

/-!
Shallow embedding of the yatzy repository (src/die.rs and src/main.rs).

Conventions of the embedding:
* Rust `u8` values are modelled as `Nat` (no arithmetic in the sources
  overflows on the inputs the claims are about).
* A call that can `panic!` or fail an `assert!` is modelled as returning
  `Option`, with `none` standing for the fatal abort.
* Randomness: `thread_rng().gen_range(low, hi)` is modelled by passing the
  sampled number `n` as an explicit argument; the rng contract
  `low ≤ n < hi` appears as a hypothesis of the theorems.
* The f64 pip coordinates in `Score::points` are exact small integers, so
  they are modelled as `Nat` pairs.
* druid's `TimerToken` is an opaque equality-comparable handle, modelled as
  `Nat`.
-/

/-- Embedding of `Score(pub u8)` from src/die.rs. -/
structure Score where
  val : Nat
  deriving DecidableEq, Repr

/-- Embedding of `Score::new`. -/
def Score.new (score : Nat) : Score := Score.mk score

/-- Embedding of `impl From<u8> for Score`. -/
def Score.fromU8 (v : Nat) : Score := Score.mk v

/-- Embedding of `Score::points` (src/die.rs lines 28-46): the pip-layout
lookup. The `_ => panic!` arm is modelled as `none`. -/
def Score.points (s : Score) : Option (List (Nat × Nat)) :=
  match s.val with
  | 0 => some []
  | 1 => some [(4, 4)]
  | 2 => some [(4, 3), (4, 5)]
  | 3 => some [(4, 2), (4, 4), (4, 6)]
  | 4 => some [(2, 2), (2, 6), (6, 2), (6, 6)]
  | 5 => some [(2, 2), (2, 6), (6, 2), (6, 6), (4, 4)]
  | 6 => some [(2, 2), (2, 4), (2, 6), (6, 2), (6, 4), (6, 6)]
  | _ => none

/-- Embedding of `Score::random`: wraps the rng sample `n` from
`gen_range(low, hi)`; the contract `low ≤ n < hi` is a theorem hypothesis. -/
def Score.random (low hi : Nat) (n : Nat) : Score := Score.mk n

/-- Embedding of `Score::random_die()` = `random(1, 7)`. -/
def Score.random_die (n : Nat) : Score := Score.random 1 7 n

/-- Embedding of `Score::different_random` (src/die.rs lines 67-77).
`n` models the `gen_range(low, hi - 1)` sample (contract
`low ≤ n < hi - 1` as a hypothesis). The `assert!(low <= old && old <= hi)`
is modelled as the guard; a failed assertion is `none`. -/
def Score.different_random (s : Score) (low hi : Nat) (n : Nat) : Option Score :=
  let old := s.val
  if low ≤ old ∧ old ≤ hi then
    some (Score.mk (if n ≥ old then n + 1 else n))
  else
    none

/-- Embedding of `Score::different_random_die` = `different_random(1, 7)`. -/
def Score.different_random_die (s : Score) (n : Nat) : Option Score :=
  s.different_random 1 7 n

/-- Embedding of `enum DieState { Value(Score), Rolling }`. -/
inductive DieState where
  | value (s : Score)
  | rolling
  deriving DecidableEq, Repr

/-- Embedding of `DieState::new`. -/
def DieState.new (value : Nat) : DieState := DieState.value (Score.mk value)

/-- Embedding of `DieState::is_rolling`. -/
def DieState.is_rolling : DieState → Bool
  | DieState.rolling => true
  | _ => false

/-- Embedding of `struct DieData { state, bright }`. -/
structure DieData where
  state : DieState
  bright : Bool
  deriving DecidableEq, Repr

/-- Embedding of `DieData::new` (src/die.rs lines 124-129). -/
def DieData.new (value : Nat) : DieData :=
  { state := DieState.new value, bright := true }

/-- Embedding of `DieData::is_rolling`. -/
def DieData.is_rolling (d : DieData) : Bool := d.state.is_rolling

/-- Embedding of `DieData::value`. -/
def DieData.value (d : DieData) : Option Score :=
  match d.state with
  | DieState.value v => some v
  | _ => none

/-- Embedding of `DieData::set_rolling` (src/die.rs lines 142-145). -/
def DieData.set_rolling (d : DieData) : DieData :=
  { d with state := DieState.rolling }

/-- Embedding of `DieData::set_value` (src/die.rs lines 147-150). -/
def DieData.set_value (d : DieData) (value : Score) : DieData :=
  { d with state := DieState.value value }

/-- Embedding of `DieData::set_bright`. -/
def DieData.set_bright (d : DieData) (bright : Bool) : DieData :=
  { d with bright := bright }

/-- Embedding of `struct Die { rolling_timer, rolling_score }`: the widget
controller's transient state. -/
structure Die where
  rolling_timer : Option Nat
  rolling_score : Score
  deriving DecidableEq, Repr

/-- Embedding of `Die::new` (`n` models the `Score::random_die()` sample). -/
def Die.new (n : Nat) : Die :=
  { rolling_timer := none, rolling_score := Score.random_die n }

/-- Embedding of `Die::score` (src/die.rs lines 175-180): displayed-value
resolution. -/
def Die.score (self : Die) (data : DieData) : Score :=
  match data.state with
  | DieState.value score => score
  | DieState.rolling => self.rolling_score

/-- Embedding of the `Event::Timer` arm of `Die::event` (src/die.rs lines
184-195). `tok` is the token carried by the timer event, `newTok` the token
`ctx.request_timer` would return, `n` the rng sample for
`different_random_die`. Returns the updated controller plus whether
`request_paint` was called; `none` models a panic inside
`different_random_die`. -/
def Die.event (self : Die) (tok : Nat) (data : DieData) (newTok : Nat)
    (n : Nat) : Option (Die × Bool) :=
  if self.rolling_timer = some tok then
    if data.is_rolling then
      match self.rolling_score.different_random_die n with
      | some s =>
          some ({ rolling_timer := some newTok, rolling_score := s }, true)
      | none => none
    else
      some (self, true)
  else
    some (self, false)

/-- Embedding of `struct StartingState`. -/
structure StartingState where
  player_name : String
  deriving DecidableEq, Repr

/-- Embedding of `struct InGameState`; the `[DieData; 5]` array is a
function out of `Fin 5`. -/
structure InGameState where
  player_name : String
  dice : Fin 5 → DieData

/-- Embedding of `enum YatzyState`. -/
inductive YatzyState where
  | starting (s : StartingState)
  | inGame (s : InGameState)

/-- Embedding of `YatzyState::start_game` (src/main.rs lines 36-48); the
`panic!("starting a new game when already in game")` arm is `none`. -/
def YatzyState.start_game : YatzyState → Option YatzyState
  | YatzyState.starting st =>
      some (YatzyState.inGame
        { player_name := st.player_name, dice := fun _ => DieData.new 6 })
  | YatzyState.inGame _ => none

/-- The closed set of selectors dispatched through druid's command system:
`ROLL`, `START_GAME`, `STOP_ROLL(Score)`, and any unrecognized command. -/
inductive Cmd where
  | roll
  | startGame
  | stopRoll (score : Score)
  | other
  deriving DecidableEq, Repr

/-- Embedding of `Delegate::command` (src/main.rs lines 94-120). The
returned `Bool` is the handler's return value (`true` = pass the command
through); `none` models the panic reachable through `start_game`. -/
def Delegate.command (cmd : Cmd) (data : YatzyState) :
    Option (YatzyState × Bool) :=
  match cmd with
  | Cmd.roll =>
      match data with
      | YatzyState.inGame st =>
          some (YatzyState.inGame
            { st with
              dice := fun i =>
                if i = 0 then (st.dice 0).set_rolling else st.dice i },
            false)
      | _ => some (data, false)
  | Cmd.startGame =>
      match data.start_game with
      | some d => some (d, false)
      | none => none
  | Cmd.stopRoll score =>
      match data with
      | YatzyState.inGame st =>
          some (YatzyState.inGame
            { st with
              dice := fun i =>
                if i = 0 then (st.dice 0).set_value score else st.dice i },
            false)
      | _ => some (data, false)
  | Cmd.other => some (data, true)

/-- Dispatch one command, keeping only the resulting state. -/
def runCmd (data : YatzyState) (cmd : Cmd) : Option YatzyState :=
  (Delegate.command cmd data).map Prod.fst

/-- Dispatch a sequence of commands in order; any panic aborts the run. -/
def runCmds (data : YatzyState) : List Cmd → Option YatzyState
  | [] => some data
  | c :: rest =>
      match runCmd data c with
      | some d => runCmds d rest
      | none => none

/-- Commands that only drive die 0's roll animation. -/
def Cmd.isRollStop : Cmd → Bool
  | Cmd.roll => true
  | Cmd.stopRoll _ => true
  | _ => false

/-! ## Helper lemmas -/

/-- Core fact about `different_random_die`: with the previous value and the
rng sample both in range, it succeeds and the result is in [1,6] and
differs from the previous value. -/
theorem different_random_die_some (s : Score) (n : Nat)
    (hs1 : 1 ≤ s.val) (hs6 : s.val ≤ 6) (hn1 : 1 ≤ n) (hn : n < 6) :
    ∃ r, s.different_random_die n = some r ∧
      1 ≤ r.val ∧ r.val ≤ 6 ∧ r.val ≠ s.val := by
  unfold Score.different_random_die Score.different_random
  refine ⟨Score.mk (if n ≥ s.val then n + 1 else n), ?_, ?_⟩
  · simp only []
    rw [if_pos ⟨hs1, by omega⟩]
  · by_cases h : n ≥ s.val
    · rw [if_pos h]
      refine ⟨?_, ?_, ?_⟩ <;> (dsimp only; omega)
    · rw [if_neg h]
      refine ⟨?_, ?_, ?_⟩ <;> (dsimp only; omega)

/-- A single roll/stop command keeps the state in-game, preserves the
player name, and leaves dice 1-4 untouched. -/
theorem rollStop_step (st : InGameState) (c : Cmd)
    (hc : c.isRollStop = true) :
    ∃ g, runCmd (YatzyState.inGame st) c = some (YatzyState.inGame g) ∧
      g.player_name = st.player_name ∧
      ∀ i, i ≠ 0 → g.dice i = st.dice i := by
  cases c with
  | roll =>
      refine ⟨_, rfl, rfl, ?_⟩
      intro i hi
      simp only [if_neg hi]
  | stopRoll sc =>
      refine ⟨_, rfl, rfl, ?_⟩
      intro i hi
      simp only [if_neg hi]
  | startGame => simp [Cmd.isRollStop] at hc
  | other => simp [Cmd.isRollStop] at hc

/-- Any sequence of roll/stop commands keeps the state in-game, preserves
the player name, and leaves dice 1-4 untouched. -/
theorem rollStop_runCmds (cmds : List Cmd) :
    ∀ st : InGameState, (∀ c ∈ cmds, c.isRollStop = true) →
    ∃ g, runCmds (YatzyState.inGame st) cmds = some (YatzyState.inGame g) ∧
      g.player_name = st.player_name ∧
      ∀ i, i ≠ 0 → g.dice i = st.dice i := by
  induction cmds with
  | nil => exact fun st _ => ⟨st, rfl, rfl, fun _ _ => rfl⟩
  | cons c rest ih =>
      intro st h
      obtain ⟨g1, hg1, hname1, hframe1⟩ :=
        rollStop_step st c (h c (List.mem_cons_self c rest))
      obtain ⟨g2, hg2, hname2, hframe2⟩ :=
        ih g1 (fun d hd => h d (List.mem_cons_of_mem c hd))
      refine ⟨g2, ?_, hname2.trans hname1, ?_⟩
      · unfold runCmds
        rw [hg1]
        exact hg2
      · intro i hi
        exact (hframe2 i hi).trans (hframe1 i hi)

/-! ## Claim theorems -/

/-- Claim C1: for every score s with value in [1,6] and every rng sample n
satisfying the `gen_range(1, 6)` contract, `different_random_die` succeeds
and returns a score whose value is in [1,6] and differs from s. -/
theorem c1_different_random_die_excludes (s : Score) (n : Nat)
    (hs1 : 1 ≤ s.val) (hs6 : s.val ≤ 6) (hn1 : 1 ≤ n) (hn : n < 6) :
    ∃ r, s.different_random_die n = some r ∧
      1 ≤ r.val ∧ r.val ≤ 6 ∧ r.val ≠ s.val :=
  different_random_die_some s n hs1 hs6 hn1 hn

/-- Witness for C1 at s = 3, n = 2. -/
theorem c1_witness :
    (1 ≤ (Score.mk 3).val ∧ (Score.mk 3).val ≤ 6 ∧ 1 ≤ 2 ∧ 2 < 6) ∧
    ∃ r, (Score.mk 3).different_random_die 2 = some r ∧
      1 ≤ r.val ∧ r.val ≤ 6 ∧ r.val ≠ (Score.mk 3).val :=
  ⟨by decide,
    c1_different_random_die_excludes (Score.mk 3) 2 (by decide) (by decide)
      (by decide) (by decide)⟩

/-- Claim C2: `points` succeeds exactly on values 0-6, returning a list of
length equal to the value with every coordinate inside the 9x9 grid, and
fails fatally (`none`) on every larger value such as 7 or 255. -/
theorem c2_points_table (v : Nat) :
    (v ≤ 6 → ∃ l, (Score.mk v).points = some l ∧ l.length = v ∧
        ∀ p ∈ l, p.1 < 9 ∧ p.2 < 9) ∧
    (6 < v → (Score.mk v).points = none) :=
  match v with
  | 0 => ⟨fun _ => ⟨[], rfl, rfl, by decide⟩, fun h => absurd h (by decide)⟩
  | 1 => ⟨fun _ => ⟨_, rfl, rfl, by decide⟩, fun h => absurd h (by decide)⟩
  | 2 => ⟨fun _ => ⟨_, rfl, rfl, by decide⟩, fun h => absurd h (by decide)⟩
  | 3 => ⟨fun _ => ⟨_, rfl, rfl, by decide⟩, fun h => absurd h (by decide)⟩
  | 4 => ⟨fun _ => ⟨_, rfl, rfl, by decide⟩, fun h => absurd h (by decide)⟩
  | 5 => ⟨fun _ => ⟨_, rfl, rfl, by decide⟩, fun h => absurd h (by decide)⟩
  | 6 => ⟨fun _ => ⟨_, rfl, rfl, by decide⟩, fun h => absurd h (by decide)⟩
  | (n + 7) => ⟨fun h => absurd h (by omega), fun _ => rfl⟩

/-- Witness for C2 at v = 4 and at v = 7. -/
theorem c2_witness :
    (∃ l, (Score.mk 4).points = some l ∧ l.length = 4 ∧
      ∀ p ∈ l, p.1 < 9 ∧ p.2 < 9) ∧
    (Score.mk 7).points = none :=
  ⟨(c2_points_table 4).1 (by decide), (c2_points_table 7).2 (by decide)⟩

/-- Claim C3: from `Starting{player_name}`, `start_game` succeeds and
produces `InGame` with the same player name and five dice all settled on
value 6 with the bright flag set. -/
theorem c3_start_game_from_starting (name : String) :
    ∃ g, (YatzyState.starting (StartingState.mk name)).start_game =
        some (YatzyState.inGame g) ∧
      g.player_name = name ∧
      ∀ i, g.dice i = DieData.mk (DieState.value (Score.mk 6)) true :=
  ⟨_, rfl, rfl, fun _ => rfl⟩

/-- Claim C4: `start_game` on any `InGame` state is a fatal invariant
violation (the panic arm, modelled as `none`). -/
theorem c4_start_game_in_game_panics (g : InGameState) :
    (YatzyState.inGame g).start_game = none := rfl

/-- Claim C5 evaluation: the assertion in `different_random` is
`low <= old && old <= hi`, so `previous = 7` (outside [1,6]) is accepted
without a fatal assertion and a value is returned, while 0 and 8 do fail
the assertion. -/
theorem c5_assert_accepts_seven :
    (Score.mk 7).different_random_die 3 = some (Score.mk 3) ∧
    (Score.mk 8).different_random_die 3 = none ∧
    (Score.mk 0).different_random_die 3 = none := by decide

/-- Counterexample for C6: `Score::new(255)` constructs a score whose
value is 255, outside [0,6]. -/
theorem c6_new_out_of_range :
    (Score.new 255).val = 255 ∧ ¬ (Score.new 255).val ≤ 6 := by decide

/-- Claim C6 (amended): `random_die` and `different_random_die` produce
values in [1,6] ⊆ [0,6] under the rng contract and in-range previous
value, while `new` and `From<u8>` return their argument unchanged, so
their result is in [0,6] only when the argument already is. -/
theorem c6_score_constructors (v n m : Nat) (p : Score)
    (hn1 : 1 ≤ n) (hn7 : n < 7)
    (hp1 : 1 ≤ p.val) (hp6 : p.val ≤ 6) (hm1 : 1 ≤ m) (hm6 : m < 6) :
    (Score.new v).val = v ∧ (Score.fromU8 v).val = v ∧
    (1 ≤ (Score.random_die n).val ∧ (Score.random_die n).val ≤ 6) ∧
    ∃ r, p.different_random_die m = some r ∧ 1 ≤ r.val ∧ r.val ≤ 6 := by
  obtain ⟨r, hr, h1, h6, _⟩ := different_random_die_some p m hp1 hp6 hm1 hm6
  exact ⟨rfl, rfl, ⟨hn1, show n ≤ 6 by omega⟩, r, hr, h1, h6⟩

/-- Witness for C6 at v = 4, n = 5, m = 3, p = 2. -/
theorem c6_witness :
    (1 ≤ 5 ∧ 5 < 7 ∧ 1 ≤ (Score.mk 2).val ∧ (Score.mk 2).val ≤ 6 ∧
      1 ≤ 3 ∧ 3 < 6) ∧
    ((Score.new 4).val = 4 ∧ (Score.fromU8 4).val = 4 ∧
      (1 ≤ (Score.random_die 5).val ∧ (Score.random_die 5).val ≤ 6) ∧
      ∃ r, (Score.mk 2).different_random_die 3 = some r ∧
        1 ≤ r.val ∧ r.val ≤ 6) :=
  ⟨by decide,
    c6_score_constructors 4 5 3 (Score.mk 2) (by decide) (by decide)
      (by decide) (by decide) (by decide) (by decide)⟩

/-- Claim C7: in `Starting`, the roll and stop-roll commands leave the
state unchanged (and are consumed), and an unrecognized command leaves any
state unchanged and is passed through (handler returns `true`). -/
theorem c7_ignore_policy (st : StartingState) (sc : Score)
    (data : YatzyState) :
    Delegate.command Cmd.roll (YatzyState.starting st) =
      some (YatzyState.starting st, false) ∧
    Delegate.command (Cmd.stopRoll sc) (YatzyState.starting st) =
      some (YatzyState.starting st, false) ∧
    Delegate.command Cmd.other data = some (data, true) :=
  ⟨rfl, rfl, rfl⟩

/-- Claim C8: in `InGame`, stop-roll(S) settles die 0 on S and begin-roll
sets die 0 rolling; in both cases, and across any sequence of roll/stop
commands, the player name and dice 1-4 are unchanged. -/
theorem c8_roll_stop_die_zero (st : InGameState) (sc : Score)
    (cmds : List Cmd) (h : ∀ c ∈ cmds, c.isRollStop = true) :
    (∃ g, runCmd (YatzyState.inGame st) (Cmd.stopRoll sc) =
        some (YatzyState.inGame g) ∧
      (g.dice 0).state = DieState.value sc ∧
      g.player_name = st.player_name ∧
      ∀ i, i ≠ 0 → g.dice i = st.dice i) ∧
    (∃ g, runCmd (YatzyState.inGame st) Cmd.roll =
        some (YatzyState.inGame g) ∧
      (g.dice 0).state = DieState.rolling ∧
      g.player_name = st.player_name ∧
      ∀ i, i ≠ 0 → g.dice i = st.dice i) ∧
    (∃ g, runCmds (YatzyState.inGame st) cmds =
        some (YatzyState.inGame g) ∧
      g.player_name = st.player_name ∧
      ∀ i, i ≠ 0 → g.dice i = st.dice i) := by
  refine ⟨⟨_, rfl, rfl, rfl, ?_⟩, ⟨_, rfl, rfl, rfl, ?_⟩,
    rollStop_runCmds cmds st h⟩ <;>
    (intro i hi; simp only [if_neg hi])

/-- Witness for C8 on a concrete in-game state with commands
[begin-roll, stop-roll(4)]. -/
theorem c8_witness :
    (∀ c ∈ [Cmd.roll, Cmd.stopRoll (Score.mk 4)], c.isRollStop = true) ∧
    ((∃ g, runCmd (YatzyState.inGame
          (InGameState.mk "Alice" (fun _ => DieData.new 6)))
          (Cmd.stopRoll (Score.mk 4)) = some (YatzyState.inGame g) ∧
        (g.dice 0).state = DieState.value (Score.mk 4) ∧
        g.player_name = "Alice" ∧
        ∀ i, i ≠ 0 → g.dice i = DieData.new 6) ∧
      (∃ g, runCmd (YatzyState.inGame
          (InGameState.mk "Alice" (fun _ => DieData.new 6)))
          Cmd.roll = some (YatzyState.inGame g) ∧
        (g.dice 0).state = DieState.rolling ∧
        g.player_name = "Alice" ∧
        ∀ i, i ≠ 0 → g.dice i = DieData.new 6) ∧
      (∃ g, runCmds (YatzyState.inGame
          (InGameState.mk "Alice" (fun _ => DieData.new 6)))
          [Cmd.roll, Cmd.stopRoll (Score.mk 4)] =
          some (YatzyState.inGame g) ∧
        g.player_name = "Alice" ∧
        ∀ i, i ≠ 0 → g.dice i = DieData.new 6)) :=
  ⟨by decide,
    c8_roll_stop_die_zero (InGameState.mk "Alice" (fun _ => DieData.new 6))
      (Score.mk 4) [Cmd.roll, Cmd.stopRoll (Score.mk 4)] (by decide)⟩

/-- Claim C9: on a timer event carrying the controller's current token,
if the die data is rolling the controller replaces its internal value with
a new in-range value distinct from the previous one and re-arms the timer
(and paints); if the data is no longer rolling it changes nothing (no
re-arm, no value update). The displayed value is the settled score when
settled and the controller's transient value when rolling. -/
theorem c9_die_event_timer (self : Die) (tok newTok n : Nat)
    (data : DieData)
    (htok : self.rolling_timer = some tok)
    (hs1 : 1 ≤ self.rolling_score.val) (hs6 : self.rolling_score.val ≤ 6)
    (hn1 : 1 ≤ n) (hn : n < 6) :
    (data.is_rolling = true →
      ∃ d, self.event tok data newTok n = some (d, true) ∧
        d.rolling_timer = some newTok ∧
        1 ≤ d.rolling_score.val ∧ d.rolling_score.val ≤ 6 ∧
        d.rolling_score.val ≠ self.rolling_score.val) ∧
    (data.is_rolling = false →
      self.event tok data newTok n = some (self, true)) ∧
    (∀ s, data.state = DieState.value s → self.score data = s) ∧
    (data.state = DieState.rolling → self.score data = self.rolling_score) := by
  obtain ⟨r, hr, h1, h6, hne⟩ :=
    different_random_die_some self.rolling_score n hs1 hs6 hn1 hn
  refine ⟨?_, ?_, ?_, ?_⟩
  · intro hroll
    refine ⟨Die.mk (some newTok) r, ?_, rfl, h1, h6, hne⟩
    unfold Die.event
    rw [if_pos htok, hroll, if_pos rfl, hr]
  · intro hroll
    unfold Die.event
    rw [if_pos htok, hroll]
    simp only [Bool.false_eq_true, if_false]
  · intro s hs
    unfold Die.score
    rw [hs]
  · intro hs
    unfold Die.score
    rw [hs]

/-- Witness for C9 at a rolling die with token 0, new token 1, previous
internal value 3, rng sample 2. -/
theorem c9_witness :
    ((Die.mk (some 0) (Score.mk 3)).rolling_timer = some 0 ∧
      1 ≤ (Die.mk (some 0) (Score.mk 3)).rolling_score.val ∧
      (Die.mk (some 0) (Score.mk 3)).rolling_score.val ≤ 6 ∧
      1 ≤ 2 ∧ 2 < 6) ∧
    (((DieData.mk DieState.rolling true).is_rolling = true →
      ∃ d, (Die.mk (some 0) (Score.mk 3)).event 0
          (DieData.mk DieState.rolling true) 1 2 = some (d, true) ∧
        d.rolling_timer = some 1 ∧
        1 ≤ d.rolling_score.val ∧ d.rolling_score.val ≤ 6 ∧
        d.rolling_score.val ≠ (Die.mk (some 0) (Score.mk 3)).rolling_score.val) ∧
    ((DieData.mk DieState.rolling true).is_rolling = false →
      (Die.mk (some 0) (Score.mk 3)).event 0
        (DieData.mk DieState.rolling true) 1 2 =
        some (Die.mk (some 0) (Score.mk 3), true)) ∧
    (∀ s, (DieData.mk DieState.rolling true).state = DieState.value s →
      (Die.mk (some 0) (Score.mk 3)).score
        (DieData.mk DieState.rolling true) = s) ∧
    ((DieData.mk DieState.rolling true).state = DieState.rolling →
      (Die.mk (some 0) (Score.mk 3)).score
        (DieData.mk DieState.rolling true) =
        (Die.mk (some 0) (Score.mk 3)).rolling_score)) :=
  ⟨by decide,
    c9_die_event_timer (Die.mk (some 0) (Score.mk 3)) 0 1 2
      (DieData.mk DieState.rolling true) (by decide) (by decide) (by decide)
      (by decide) (by decide)⟩

/-- Claim C10: `set_rolling` and `set_value` change only the state field,
leaving the bright display flag untouched. -/
theorem c10_setters_preserve_bright (d : DieData) (s : Score) :
    d.set_rolling.bright = d.bright ∧
    d.set_rolling.state = DieState.rolling ∧
    (d.set_value s).bright = d.bright ∧
    (d.set_value s).state = DieState.value s :=
  ⟨rfl, rfl, rfl, rfl⟩
